import Mathlib

/-!
Verification development for the geopandas spatial-join / overlay core
(`geopandas/tools/sjoin.py` and `geopandas/tools/overlay.py`).

The two source files are shallowly embedded below.  Machinery the source
uses from outside those files is modelled as follows:

* geometries (shapely) are an external collaborator; a small concrete
  geometry type (axis-aligned boxes and points, plus an `invalid` wrapper
  repaired by `make_valid`) stands in for it.  Only the operations the
  claims exercise get concrete semantics; the binary set operations are
  placeholders because every overlay code path raises before reaching them.
* pandas frames are modelled by `Frame`: named columns, rows of values,
  a single-level integer row-label index with an optional name, the active
  geometry column name and a CRS attribute.  The pandas primitives the
  source calls (`loc`, `reset_index`, `merge` on index, `drop`, `set_index`,
  column rename, `apply(axis=1)`, `concat`) are embedded with their pandas
  semantics restricted to these frames (string column labels, integer
  single-level indexes; the MultiIndex branch of `_reset_index_with_suffix`
  is not exercised by any claim).
* numpy `where` / `isin` are embedded with 1-d broadcasting semantics
  (sizes must agree or be 1; a scalar broadcasts with anything).
* Python exceptions become `Except PyErr`; emitted warnings are collected
  in a list.  Error message strings are abbreviated but keep the
  distinguishing content of the source messages.
-/

namespace GeoPandas

/-- Modelled from the spec: the external geometry value type (shapely).  The
spec only requires standard predicates, set operations, validity repair and
type introspection; boxes and points with an `invalid` wrapper are enough for
every claim. -/
inductive Geom where
  | box (x0 y0 x1 y1 : Int)
  | pt (x y : Int)
  | invalid (repaired : Geom)
deriving DecidableEq, Repr

/-- Modelled from the spec: `make_valid` repairs an invalid geometry and is
the identity on valid ones. -/
def makeValid : Geom → Geom
  | .invalid g => makeValid g
  | .box a b c d => .box a b c d
  | .pt x y => .pt x y

/-- Modelled from the spec: bounding interval of a toy geometry, used to give
the predicates and distances concrete semantics (for boxes and points the
bounding box is the geometry itself). -/
def bounds : Geom → Int × Int × Int × Int
  | .box x0 y0 x1 y1 => (x0, x1, y0, y1)
  | .pt x y => (x, x, y, y)
  | .invalid g => bounds g

/-- Gap between two closed intervals (0 when they overlap or touch). -/
def axisGap (lo1 hi1 lo2 hi2 : Int) : Int :=
  max 0 (max (lo1 - hi2) (lo2 - hi1))

/-- Modelled from the spec: Chebyshev distance between two toy geometries
(0 exactly when they intersect, boundary contact included). -/
def distG (g h : Geom) : Int :=
  max (axisGap (bounds g).1 (bounds g).2.1 (bounds h).1 (bounds h).2.1)
      (axisGap (bounds g).2.2.1 (bounds g).2.2.2 (bounds h).2.2.1 (bounds h).2.2.2)

/-- Modelled from the spec: the `intersects` predicate of the external
geometry library (true also on boundary contact). -/
def intersectsG (g h : Geom) : Bool :=
  distG g h == 0

/-- Modelled from the spec: geometric intersection of two toy geometries. -/
def intersectionG (g h : Geom) : Geom :=
  .box (max (bounds g).1 (bounds h).1) (max (bounds g).2.2.1 (bounds h).2.2.1)
       (min (bounds g).2.1 (bounds h).2.1) (min (bounds g).2.2.2 (bounds h).2.2.2)

/-- Modelled from the spec: geometric difference.  Placeholder value: every
overlay code path raises before any difference is computed, so the result is
never observed. -/
def differenceG (g _h : Geom) : Geom := g

/-- Modelled from the spec: geometric union.  Placeholder value, never
reached (the union path raises while validating `how`). -/
def unionG (g _h : Geom) : Geom := g

/-- Modelled from the spec: `geom_type` introspection of the external
geometry library. -/
def geomTypeStr : Geom → String
  | .box _ _ _ _ => "Polygon"
  | .pt _ _ => "Point"
  | .invalid g => geomTypeStr g

/-- Cell values of a pandas column: integers, strings, geometries, and the
missing-value marker (NaN / None are not distinguished). -/
inductive Val where
  | vInt (n : Int)
  | vStr (s : String)
  | vGeom (g : Geom)
  | vNull
deriving DecidableEq, Repr

/-- Python exceptions raised by the embedded code. -/
inductive PyErr where
  | valueError (msg : String)
  | keyError (msg : String)
deriving DecidableEq, Repr

/-- Warnings emitted by the embedded code. -/
inductive Warn where
  | crsMismatch
  | keepGeomTypeDropped
deriving DecidableEq, Repr

/-- a GeoDataFrame: columns with rows of values, a single-level integer
row-label index with an optional name, the active geometry column name, and
the CRS attribute (CRS identifiers are abstracted to naturals). -/
structure Frame where
  cols : List String
  rows : List (List Val)
  idx : List Int
  idxName : Option String
  geomName : String
  crs : Option Nat
deriving DecidableEq, Repr

/-- Position of a column label. -/
def Frame.colIdx (f : Frame) (c : String) : Option Nat :=
  f.cols.findIdx? (fun x => x == c)

/-- Values of one column, in row order. -/
def Frame.getCol (f : Frame) (c : String) : List Val :=
  match f.colIdx c with
  | some i => f.rows.map (fun r => r.getD i Val.vNull)
  | none => []

/-- Geometries of the active geometry column. -/
def Frame.geomCol (f : Frame) : List Geom :=
  (f.getCol f.geomName).filterMap (fun v =>
    match v with
    | .vGeom g => some g
    | _ => none)

/-- pandas `df[c] = values`: overwrite a column, or append it as the last
column when the label is new. -/
def Frame.setCol (f : Frame) (c : String) (vs : List Val) : Frame :=
  match f.colIdx c with
  | some i => { f with rows := (f.rows.zip vs).map (fun p => p.1.set i p.2) }
  | none =>
    { f with cols := f.cols ++ [c],
             rows := (f.rows.zip vs).map (fun p => p.1 ++ [p.2]) }

/-- pandas `df.drop(columns=cs)`: KeyError when a label is absent. -/
def Frame.dropCols (f : Frame) (cs : List String) : Except PyErr Frame :=
  match cs.find? (fun c => !(f.cols.contains c)) with
  | some c => .error (.keyError c)
  | none =>
    .ok { f with
          cols := f.cols.filter (fun c => !(cs.contains c)),
          rows := f.rows.map (fun r =>
            (((f.cols.zip r).filter (fun p => !(cs.contains p.1))).map Prod.snd)) }

/-- All (label, row) pairs carrying a given label, in frame order. -/
def Frame.rowsWithLabel (f : Frame) (k : Int) : List (Int × List Val) :=
  (f.idx.zip f.rows).filter (fun p => p.1 == k)

/-- pandas `df.loc[keys]` for a list of row labels: every key must be a
present label (a missing label or NaN key raises KeyError); duplicate labels
in the frame expand to all matching rows. -/
def Frame.loc (f : Frame) (keys : List (Option Int)) : Except PyErr Frame :=
  if keys.any (fun k =>
      match k with
      | none => true
      | some k => !(f.idx.contains k)) then
    .error (.keyError "label not in index")
  else
    let sel := ((keys.map (fun k =>
      match k with
      | some k => f.rowsWithLabel k
      | none => [])).flatten)
    .ok { f with idx := sel.map Prod.fst, rows := sel.map Prod.snd }

/-- pandas `df.reset_index(drop=True)`: fresh unnamed RangeIndex. -/
def Frame.resetIndexDrop (f : Frame) : Frame :=
  { f with idx := (List.range f.rows.length).map Int.ofNat, idxName := none }

/-- Keep only the rows whose mask entry is true. -/
def maskFilterRows (f : Frame) (mask : List Bool) : Frame :=
  let kept := (((f.idx.zip f.rows).zip mask).filter Prod.snd).map Prod.fst
  { f with idx := kept.map Prod.fst, rows := kept.map Prod.snd }

/-- pandas `pd.concat([a, b], ignore_index=True)`: rows appended, fresh
RangeIndex, columns aligned by label (missing cells become null). -/
def concatFrames (a b : Frame) : Frame :=
  if a.cols = b.cols then
    { a with rows := a.rows ++ b.rows,
             idx := (List.range (a.rows.length + b.rows.length)).map Int.ofNat,
             idxName := none }
  else
    let cols := a.cols ++ b.cols.filter (fun c => !(a.cols.contains c))
    let fix := fun (f : Frame) (r : List Val) =>
      cols.map (fun c =>
        match f.colIdx c with
        | some i => r.getD i Val.vNull
        | none => Val.vNull)
    { cols := cols,
      rows := a.rows.map (fix a) ++ b.rows.map (fix b),
      idx := (List.range (a.rows.length + b.rows.length)).map Int.ofNat,
      idxName := none, geomName := a.geomName, crs := a.crs }

/-- numpy 1-d broadcasting of two sizes: equal, or one of them is 1. -/
def combineDim (m n : Nat) : Option Nat :=
  if m = n then some m else if m = 1 then some n else if n = 1 then some m else none

/-- Broadcast-aware element access: a length-1 array repeats its element. -/
def bGet {α : Type} (d : α) (xs : List α) (i : Nat) : α :=
  if xs.length = 1 then xs.getD 0 d else xs.getD i d

/-- numpy `np.where(mask, a, b)` on 1-d integer arrays, with broadcasting;
incompatible shapes raise ValueError. -/
def npWhere (mask : List Bool) (a b : List Int) : Except PyErr (List Int) :=
  match combineDim mask.length a.length with
  | none => .error (.valueError "operands could not be broadcast together")
  | some m1 =>
    match combineDim m1 b.length with
    | none => .error (.valueError "operands could not be broadcast together")
    | some n =>
      .ok ((List.range n).map (fun i =>
        if bGet false mask i then bGet 0 a i else bGet 0 b i))

/-- numpy `np.where(mask, a, s)` with a scalar third operand (a scalar
broadcasts with any shape). -/
def npWhereScalar (mask : List Bool) (a : List Int) (s : Int) : Except PyErr (List Int) :=
  match combineDim mask.length a.length with
  | none => .error (.valueError "operands could not be broadcast together")
  | some n =>
    .ok ((List.range n).map (fun i =>
      if bGet false mask i then bGet 0 a i else s))

/-- numpy `np.where(mask, a, np.nan)` on a float array with missing values
(`none` models NaN). -/
def npWhereOptNull (mask : List Bool) (a : List (Option Int)) :
    Except PyErr (List (Option Int)) :=
  match combineDim mask.length a.length with
  | none => .error (.valueError "operands could not be broadcast together")
  | some n =>
    .ok ((List.range n).map (fun i =>
      if bGet false mask i then bGet none a i else none))

/-- numpy `np.isin(xs, ys)`. -/
def npIsin (xs ys : List Int) : List Bool :=
  xs.map (fun x => ys.contains x)

/-- Integer range `np.arange(n)`. -/
def rangeInt (n : Nat) : List Int :=
  (List.range n).map Int.ofNat

/-!  Embedding of `geopandas/tools/sjoin.py`. -/

/-- Modelled from the spec: `_check_crs` (geopandas.array, not under src/)
reports whether the two CRS attributes agree; `_crs_mismatch_warn` emits the
non-fatal `Warn.crsMismatch` when they do not. -/
def _check_crs (a b : Option Nat) : Bool :=
  a == b

/-- Candidate name with a numeric disambiguator, `f"{base}_{i}"`. -/
def mkCand (base : String) (i : Nat) : String :=
  base ++ "_" ++ toString i

/-- The `i = 0; while f"{new_name}_{i}" in columns: i += 1` loop shared by
`_reset_index_with_suffix` and `_get_new_name`, written with fuel (the loop
terminates within `taken.length + 1` steps because the candidates are
pairwise distinct). -/
def uniqueFrom (base : String) (taken : List String) : Nat → Nat → String
  | 0, i => mkCand base i
  | fuel + 1, i =>
    if mkCand base i ∈ taken then uniqueFrom base taken fuel (i + 1)
    else mkCand base i

/-- First `f"{base}_{i}"` (i = 0, 1, ...) that is not already a column. -/
def uniqueName (base : String) (taken : List String) : String :=
  uniqueFrom base taken (taken.length + 1) 0

/-- `_get_new_name` from `_process_column_names_with_suffix`
(sjoin.py lines 241-248): append the suffix directly; while the result is
taken, append a numeric disambiguator. -/
def getNewName (name suffix : String) (colNames : List String) : String :=
  if name ++ suffix ∈ colNames then uniqueName (name ++ suffix) colNames
  else name ++ suffix

/-- `_reset_index_with_suffix` (sjoin.py lines 209-232), single-level-index
branch: move the row labels into a column named `f"{index_name}_{suffix}"`
(disambiguated against the other frame's columns), leaving a fresh unnamed
RangeIndex.  pandas `reset_index(names=...)` raises when the chosen name is
already a column of the frame itself. -/
def _reset_index_with_suffix (df : Frame) (suffix : String) (other : Frame) :
    Except PyErr Frame :=
  let indexName := df.idxName.getD "index"
  let newName :=
    if indexName ++ "_" ++ suffix ∈ other.cols then
      uniqueName (indexName ++ "_" ++ suffix) other.cols
    else indexName ++ "_" ++ suffix
  if newName ∈ df.cols then
    .error (.valueError ("cannot insert " ++ newName ++ ", already exists"))
  else
    .ok { df with
          cols := newName :: df.cols,
          rows := (df.idx.zip df.rows).map (fun p => Val.vInt p.1 :: p.2),
          idx := rangeInt df.rows.length,
          idxName := none }

/-- Columns present in both frames, geometry excluded (Python builds
`set(left) & set(right) - {"geometry"}`; duplicates are immaterial because
the result feeds a rename dictionary, so the set is modelled by a filter). -/
def overlapCols (left right : List String) : List String :=
  left.filter (fun c => decide (c ∈ right) && !(c == "geometry"))

/-- `_process_column_names_with_suffix` (sjoin.py lines 234-269): rename
mappings for the two sides.  When the two column indexes are equal no rename
happens at all; otherwise every overlapping non-geometry name gets the
corresponding suffix appended via `_get_new_name`. -/
def _process_column_names_with_suffix (left right : List String)
    (lsuffix rsuffix : String) : List (String × String) × List (String × String) :=
  if left = right then ([], [])
  else
    ((overlapCols left right).map (fun n => (n, getNewName n lsuffix left)),
     (overlapCols left right).map (fun n => (n, getNewName n rsuffix right)))

/-- pandas `df.rename(columns=mapping)`. -/
def renameCols (f : Frame) (m : List (String × String)) : Frame :=
  { f with cols := f.cols.map (fun c => (m.lookup c).getD c) }

/-- pandas `df.set_index([s])` restricted to a single integer-valued column
(the only shape the embedded code could produce). -/
def setIndexCol (f : Frame) (s : String) : Frame :=
  let vals := (f.getCol s).map (fun v =>
    match v with
    | .vInt n => n
    | _ => 0)
  match f.dropCols [s] with
  | .ok g => { g with idx := vals, idxName := some s }
  | .error _ => f

/-- `_restore_index` (sjoin.py lines 271-281): with a non-empty name list the
code calls `joined.set_index(index_names)`; a name that is not a column label
(in particular `None`, the name of a RangeIndex) raises KeyError. -/
def _restore_index (joined : Frame) (indexNames : List (Option String)) :
    Except PyErr Frame :=
  match indexNames with
  | [] => .ok joined
  | [some s] =>
    if s ∈ joined.cols then .ok (setIndexCol joined s)
    else .error (.keyError "None of the index names are in the columns")
  | _ => .error (.keyError "None of the index names are in the columns")

/-- `_adjust_indexers` (sjoin.py lines 283-311).  The query result is a pair
of label arrays (`_key_left`, `_key_right`); for `left`/`right` joins they
are combined with `np.arange(original_length)` through `np.isin`/`np.where`,
inheriting numpy broadcasting (and its errors).  Note the source always
passes `len(left_df)` as `original_length`, also for right joins, and the
adjusted distances are produced only for the `dwithin` predicate. -/
def _adjust_indexers (indices : List Int × List Int)
    (distances : Option (List (Option Int))) (originalLength : Nat)
    (how predicate : String) :
    Except PyErr ((List Int × List Int) × Option (List (Option Int))) :=
  if how = "inner" then .ok (indices, distances)
  else if how = "left" then
    match npWhere (npIsin (rangeInt originalLength) indices.1) indices.1
            (rangeInt originalLength) with
    | .error e => .error e
    | .ok leftAdj =>
      match npWhereScalar (npIsin (rangeInt originalLength) indices.1) indices.2 (-1) with
      | .error e => .error e
      | .ok rightAdj =>
        if distances.isSome ∧ predicate = "dwithin" then
          match npWhereOptNull (npIsin (rangeInt originalLength) indices.1)
                  (distances.getD []) with
          | .error e => .error e
          | .ok dAdj => .ok ((leftAdj, rightAdj), some dAdj)
        else .ok ((leftAdj, rightAdj), none)
  else if how = "right" then
    match npWhereScalar (npIsin (rangeInt originalLength) indices.2) indices.1 (-1) with
    | .error e => .error e
    | .ok leftAdj =>
      match npWhere (npIsin (rangeInt originalLength) indices.2) indices.2
              (rangeInt originalLength) with
      | .error e => .error e
      | .ok rightAdj =>
        if distances.isSome ∧ predicate = "dwithin" then
          match npWhereOptNull (npIsin (rangeInt originalLength) indices.2)
                  (distances.getD []) with
          | .error e => .error e
          | .ok dAdj => .ok ((leftAdj, rightAdj), some dAdj)
        else .ok ((leftAdj, rightAdj), none)
  else
    .error (.valueError "name mask is not defined")

/-- pandas `merge(..., left_index=True, right_index=True)`: suffix the
overlapping column labels of each side, then pair rows by equal index label
(`left` keeps unmatched left rows null-padded, `right` symmetrically,
`inner` keeps matching pairs only). -/
def mergeOnIndex (l r : Frame) (how : String) (lsuf rsuf : String) : Frame :=
  let lcols := l.cols.map (fun c => if r.cols.contains c then c ++ lsuf else c)
  let rcols := r.cols.map (fun c => if l.cols.contains c then c ++ rsuf else c)
  let pairs : List (Int × List Val) :=
    if how = "left" then
      ((l.idx.zip l.rows).map (fun p =>
        match r.rowsWithLabel p.1 with
        | [] => [(p.1, p.2 ++ r.cols.map (fun _ => Val.vNull))]
        | ms => ms.map (fun m => (p.1, p.2 ++ m.2)))).flatten
    else if how = "right" then
      ((r.idx.zip r.rows).map (fun p =>
        match l.rowsWithLabel p.1 with
        | [] => [(p.1, l.cols.map (fun _ => Val.vNull) ++ p.2)]
        | ms => ms.map (fun m => (p.1, m.2 ++ p.2)))).flatten
    else
      ((l.idx.zip l.rows).map (fun p =>
        (r.rowsWithLabel p.1).map (fun m => (p.1, p.2 ++ m.2)))).flatten
  { cols := lcols ++ rcols,
    rows := pairs.map Prod.snd,
    idx := pairs.map Prod.fst,
    idxName := none,
    geomName := l.geomName,
    crs := l.crs }

/-- Adjusted distances as column values (`NaN` for sentinel rows). -/
def distVals (d : Option (List (Option Int))) : List Val :=
  (d.getD []).map (fun x =>
    match x with
    | some n => Val.vInt n
    | none => Val.vNull)

/-- Reset, rename and merge steps of `_frame_join` (sjoin.py lines 348-365):
reset both indexes into suffixed columns, rename overlapping columns, then
merge by index according to `how` (with the `.replace(-1, np.nan)` sentinel
handling and `.loc` row selection of the source).  Returns the joined frame
together with `left_df.index.names` as it stands after the resets (always
`[None]`), which the source then passes to `_restore_index`. -/
def _frame_join_merge (left right : Frame) (indices2 : List Int × List Int)
    (how lsuffix rsuffix : String) : Except PyErr (Frame × Option String) :=
  match _reset_index_with_suffix left lsuffix right with
  | .error e => .error e
  | .ok leftR0 =>
    match _reset_index_with_suffix right rsuffix leftR0 with
    | .error e => .error e
    | .ok rightR0 =>
      let leftR := renameCols leftR0
        (_process_column_names_with_suffix leftR0.cols rightR0.cols lsuffix rsuffix).1
      let rightR := renameCols rightR0
        (_process_column_names_with_suffix leftR0.cols rightR0.cols lsuffix rsuffix).2
      if how = "left" then
        match rightR.loc (indices2.2.map (fun k => if k = -1 then none else some k)) with
        | .error e => .error e
        | .ok rsel => .ok (mergeOnIndex leftR rsel "left" "" rsuffix, leftR.idxName)
      else if how = "right" then
        match leftR.loc (indices2.1.map (fun k => if k = -1 then none else some k)) with
        | .error e => .error e
        | .ok lsel => .ok (mergeOnIndex lsel rightR "right" lsuffix "", leftR.idxName)
      else
        match leftR.loc (indices2.1.map some) with
        | .error e => .error e
        | .ok lsel =>
          match rightR.loc (indices2.2.map some) with
          | .error e => .error e
          | .ok rsel =>
            .ok (mergeOnIndex lsel rsel "inner" lsuffix rsuffix, leftR.idxName)

/-- `_frame_join` (sjoin.py lines 313-378): adjust the indexers, reset /
rename / merge, attach the `distance` column when distances are present and
the predicate is `dwithin`, and finally restore the index (the source passes
the post-reset `left_df.index.names` to `_restore_index`).  The
`isinstance(joined, GeoDataFrame)` re-wrap of lines 375-377 is a no-op here
because merging GeoDataFrames yields a GeoDataFrame. -/
def _frame_join (left right : Frame) (indices : List Int × List Int)
    (distances : Option (List (Option Int))) (how lsuffix rsuffix predicate : String) :
    Except PyErr Frame :=
  match _adjust_indexers indices distances left.rows.length how predicate with
  | .error e => .error e
  | .ok (indices2, distances2) =>
    match _frame_join_merge left right indices2 how lsuffix rsuffix with
    | .error e => .error e
    | .ok (joined, leftIdxName) =>
      _restore_index
        (if distances2.isSome ∧ predicate = "dwithin" then
          joined.setCol "distance" (distVals distances2)
        else joined)
        [leftIdxName]

/-- Stated from the claim wording of C10: `_frame_join` with the
distance-attachment step (sjoin.py lines 367-369) deleted, used to verify
that the attachment never fires on the plain `sjoin` path. -/
def _frame_joinNoAttach (left right : Frame) (indices : List Int × List Int)
    (distances : Option (List (Option Int))) (how lsuffix rsuffix predicate : String) :
    Except PyErr Frame :=
  match _adjust_indexers indices distances left.rows.length how predicate with
  | .error e => .error e
  | .ok (indices2, _distances2) =>
    match _frame_join_merge left right indices2 how lsuffix rsuffix with
    | .error e => .error e
    | .ok (joined, leftIdxName) =>
      _restore_index joined [leftIdxName]

/-- The `for attr in on_attribute` loop of `_basic_checks`
(sjoin.py lines 151-158). -/
def checkOnAttribute (leftCols rightCols : List String) :
    List String → Except PyErr Unit
  | [] => .ok ()
  | a :: rest =>
    if a ∈ leftCols then
      if a ∈ rightCols then checkOnAttribute leftCols rightCols rest
      else .error (.valueError (a ++ " column not found in right GeoDataFrame"))
    else .error (.valueError (a ++ " column not found in left GeoDataFrame"))

/-- `_basic_checks` (sjoin.py lines 110-158).  The `isinstance` checks are
modelled away (every `Frame` is a GeoDataFrame).  Note the source checks
`index_<lsuffix>` only against the left frame and `index_<rsuffix>` only
against the right frame. -/
def _basic_checks (left right : Frame) (how lsuffix rsuffix : String)
    (onAttribute : List String) : Except PyErr Unit :=
  if how ∈ (["left", "right", "inner"] : List String) then
    if ("index_" ++ lsuffix) ∈ left.cols then
      .error (.valueError (("index_" ++ lsuffix) ++ " column already exists in left GeoDataFrame"))
    else if ("index_" ++ rsuffix) ∈ right.cols then
      .error (.valueError (("index_" ++ rsuffix) ++ " column already exists in right GeoDataFrame"))
    else checkOnAttribute left.cols right.cols onAttribute
  else
    .error (.valueError ("how was " ++ how ++ " but is expected to be left, right or inner"))

/-- Type of the external spatial-index query (`right_df.sindex.query`). -/
abbrev QueryFn :=
  List Geom → List Geom → String → Option Int → Except PyErr (List Nat × List Nat)

/-- Modelled from the spec: the external spatial index (section 4.1, not
under src/) returns every (left position, right position) pair satisfying
the predicate; an unsupported predicate name is an error of the index
library; the lazy build and memoisation of the index are stateless here. -/
def sindexQuery : QueryFn := fun leftGeoms rightGeoms predicate distance =>
  if predicate = "intersects" ∨ predicate = "dwithin" then
    let test := fun (g h : Geom) =>
      if predicate = "dwithin" then distG g h ≤ distance.getD 0 else intersectsG g h = true
    let pairs := ((List.range leftGeoms.length).map (fun i =>
      (List.range rightGeoms.length).filterMap (fun j =>
        if test (leftGeoms.getD i (Geom.pt 0 0)) (rightGeoms.getD j (Geom.pt 0 0))
        then some (i, j) else none))).flatten
    .ok (pairs.map Prod.fst, pairs.map Prod.snd)
  else .error (.valueError ("invalid query predicate " ++ predicate))

/-- Cell of a row by column label, `row[c]`; missing labels raise KeyError. -/
def getItemE (cols : List String) (row : List Val) (c : String) : Except PyErr Val :=
  match cols.findIdx? (fun x => x == c) with
  | some i => .ok (row.getD i Val.vNull)
  | none => .error (.keyError c)

/-- Positional boolean-mask filter, `index[mask]`. -/
def maskFilter (xs : List Int) (m : List Bool) : List Int :=
  ((xs.zip m).filter Prod.snd).map Prod.fst

/-- Cell of a row by column label with a null default (total variant used by
the attribute-equality filter). -/
def getCellD (cols : List String) (row : List Val) (c : String) : Val :=
  match cols.findIdx? (fun x => x == c) with
  | some i => row.getD i Val.vNull
  | none => Val.vNull

/-- `_geom_predicate_query` (sjoin.py lines 160-207), parametrised by the
external index query: raise when `dwithin` lacks a distance, run the query,
convert positions to row labels via `index.take`, and apply the
`on_attribute` equality filter (pandas `==` requires identically labeled
frames). -/
def _geom_predicate_queryWith (q : QueryFn) (left right : Frame)
    (predicate : String) (distance : Option Int) (onAttribute : List String) :
    Except PyErr (List Int × List Int) :=
  if predicate = "dwithin" ∧ distance.isNone then
    .error (.valueError "Distance is required for dwithin predicate")
  else
    match q left.geomCol right.geomCol predicate distance with
    | .error e => .error e
    | .ok found =>
      let leftIndex := found.1.map (fun i => left.idx.getD i 0)
      let rightIndex := found.2.map (fun i => right.idx.getD i 0)
      if onAttribute.isEmpty then .ok (leftIndex, rightIndex)
      else
        match left.loc (leftIndex.map some) with
        | .error e => .error e
        | .ok lsub =>
          match right.loc (rightIndex.map some) with
          | .error e => .error e
          | .ok rsub =>
          if lsub.idx = rsub.idx then
            let keep := (lsub.rows.zip rsub.rows).map (fun p =>
              onAttribute.all (fun c => getCellD lsub.cols p.1 c == getCellD rsub.cols p.2 c))
            .ok (maskFilter leftIndex keep, maskFilter rightIndex keep)
          else .error (.valueError "Can only compare identically-labeled DataFrame objects")

/-- `sjoin` (sjoin.py lines 10-108), parametrised by the external index
query so that theorems can quantify over it: basic checks, the CRS warning,
the predicate query, then `_frame_join` with `distances=None`. -/
def sjoinWith (q : QueryFn) (left right : Frame) (how predicate lsuffix rsuffix : String)
    (distance : Option Int) (onAttribute : List String) :
    Except PyErr Frame × List Warn :=
  match _basic_checks left right how lsuffix rsuffix onAttribute with
  | .error e => (.error e, [])
  | .ok _ =>
    match _geom_predicate_queryWith q left right predicate distance onAttribute with
    | .error e => (.error e, if _check_crs left.crs right.crs then [] else [Warn.crsMismatch])
    | .ok indices =>
      (_frame_join left right indices none how lsuffix rsuffix predicate,
       if _check_crs left.crs right.crs then [] else [Warn.crsMismatch])

/-- Stated from the claim wording of C10: the `sjoin` pipeline built on
`_frame_joinNoAttach`, i.e. with the automatic distance attachment removed. -/
def sjoinNoAttachWith (q : QueryFn) (left right : Frame)
    (how predicate lsuffix rsuffix : String) (distance : Option Int)
    (onAttribute : List String) : Except PyErr Frame × List Warn :=
  match _basic_checks left right how lsuffix rsuffix onAttribute with
  | .error e => (.error e, [])
  | .ok _ =>
    match _geom_predicate_queryWith q left right predicate distance onAttribute with
    | .error e => (.error e, if _check_crs left.crs right.crs then [] else [Warn.crsMismatch])
    | .ok indices =>
      (_frame_joinNoAttach left right indices none how lsuffix rsuffix predicate,
       if _check_crs left.crs right.crs then [] else [Warn.crsMismatch])

/-- `sjoin` with the concrete spatial index. -/
def sjoin (left right : Frame) (how predicate lsuffix rsuffix : String)
    (distance : Option Int) (onAttribute : List String) :
    Except PyErr Frame × List Warn :=
  sjoinWith sindexQuery left right how predicate lsuffix rsuffix distance onAttribute

/-- Type of the external nearest-neighbor query (`right_df.sindex.nearest`). -/
abbrev NearestFn :=
  List Geom → List Geom → Option Int → Bool → List Nat × List Nat × List Int

/-- Minimum of a candidate distance list. -/
def minDist (xs : List Int) : Option Int :=
  xs.foldl (fun acc v =>
    match acc with
    | none => some v
    | some m => some (min m v)) none

/-- Modelled from the spec: the external nearest query (section 4.1, not
under src/) returns, for each left geometry, every right row at the minimal
distance (equidistant ties all fan out) together with the distances;
`max_distance` bounds the search and `exclusive` drops zero-distance
matches. -/
def sindexNearest : NearestFn := fun leftGeoms rightGeoms maxDistance exclusive =>
  let triples : List (Nat × Nat × Int) := ((List.range leftGeoms.length).map (fun i =>
    let g := leftGeoms.getD i (Geom.pt 0 0)
    let cand : List (Nat × Int) := (List.range rightGeoms.length).map (fun j =>
      (j, distG g (rightGeoms.getD j (Geom.pt 0 0))))
    let cand := if exclusive then cand.filter (fun p => !(p.2 == 0)) else cand
    let cand :=
      match maxDistance with
      | some m => cand.filter (fun (p : Nat × Int) => decide (p.2 ≤ m))
      | none => cand
    match minDist (cand.map Prod.snd) with
    | none => []
    | some m => (cand.filter (fun (p : Nat × Int) => p.2 == m)).map
        (fun (p : Nat × Int) => (i, p.1, m)))).flatten
  (triples.map Prod.fst, triples.map (fun t => t.2.1), triples.map (fun t => t.2.2))

/-- `sjoin_nearest` (sjoin.py lines 401-545), parametrised by the external
nearest query: basic checks (without `on_attribute`), the positivity check
on `max_distance`, the CRS warning, the nearest query with distances, then
`_frame_join` with predicate `"nearest"`, and finally the `distance_col`
attachment on the joined result. -/
def sjoin_nearestWith (nq : NearestFn) (left right : Frame) (how : String)
    (maxDistance : Option Int) (lsuffix rsuffix : String)
    (distanceCol : Option String) (exclusive : Bool) :
    Except PyErr Frame × List Warn :=
  match _basic_checks left right how lsuffix rsuffix [] with
  | .error e => (.error e, [])
  | .ok _ =>
    if (maxDistance.getD 1) ≤ 0 ∧ maxDistance.isSome then
      (.error (.valueError "max_distance must be greater than 0"), [])
    else
      let warns := if _check_crs left.crs right.crs then [] else [Warn.crsMismatch]
      let nres := nq left.geomCol right.geomCol maxDistance exclusive
      let leftIndex := nres.1.map (fun i => left.idx.getD i 0)
      let rightIndex := nres.2.1.map (fun i => right.idx.getD i 0)
      match _frame_join left right (leftIndex, rightIndex)
              (some (nres.2.2.map some)) how lsuffix rsuffix "nearest" with
      | .error e => (.error e, warns)
      | .ok joined =>
        match distanceCol with
        | none => (.ok joined, warns)
        | some c => (.ok (joined.setCol c (nres.2.2.map Val.vInt)), warns)

/-- `sjoin_nearest` with the concrete spatial index. -/
def sjoin_nearest (left right : Frame) (how : String) (maxDistance : Option Int)
    (lsuffix rsuffix : String) (distanceCol : Option String) (exclusive : Bool) :
    Except PyErr Frame × List Warn :=
  sjoin_nearestWith sindexNearest left right how maxDistance lsuffix rsuffix
    distanceCol exclusive

/-!  Embedding of `geopandas/tools/overlay.py`.  The helpers call
`df1.sjoin(df2, ...)`; `GeoDataFrame.sjoin` is not under src/ and is
modelled from the spec as delegating to the module-level `sjoin` with the
same arguments. -/

/-- `_ensure_geometry_column` (overlay.py lines 9-22): force the active
geometry column to be literally named `geometry`, dropping a clashing
column first.  The second component records whether the returned frame is
the caller's own object (true exactly when nothing was renamed), which is
what makes the later in-place `df["geometry"] = ...` assignment visible to
the caller. -/
def _ensure_geometry_column (df : Frame) : Frame × Bool :=
  if df.geomName = "geometry" then (df, true)
  else
    let df2 :=
      if "geometry" ∈ df.cols then
        { df with
          cols := df.cols.filter (fun c => !(c == "geometry")),
          rows := df.rows.map (fun r =>
            ((df.cols.zip r).filter (fun p => !(p.1 == "geometry"))).map Prod.snd) }
      else df
    ({ df2 with
       cols := df2.cols.map (fun c => if c == df.geomName then "geometry" else c),
       geomName := "geometry" }, false)

/-- In-place `df["geometry"] = df.geometry.make_valid()` style update of the
active geometry column. -/
def mapGeomCol (f : Geom → Geom) (df : Frame) : Frame :=
  df.setCol "geometry" ((df.getCol "geometry").map (fun v =>
    match v with
    | .vGeom g => Val.vGeom (f g)
    | v => v))

/-- The `lambda row: row["geometry_x"].intersection(row["geometry_y"])`
applied row-wise in `_overlay_intersection` (overlay.py line 35); a missing
column label raises KeyError, exactly as `row[...]` does. -/
def applyIntersectionLambda (f : Frame) : Except PyErr (List Val) :=
  f.rows.mapM (fun row =>
    match getItemE f.cols row "geometry_x" with
    | .error e => .error e
    | .ok gx =>
      match getItemE f.cols row "geometry_y" with
      | .error e => .error e
      | .ok gy =>
        match gx, gy with
        | .vGeom a, .vGeom b => .ok (Val.vGeom (intersectionG a b))
        | _, _ => .error (.valueError "intersection applied to a non-geometry"))

/-- `difference_op` of `_overlay_difference` (overlay.py lines 53-56): keep
the left geometry when `index_right` is NaN, otherwise subtract
`row["geometry_right"]` (the `row["geometry"]` access resolves first). -/
def applyDifferenceLambda (f : Frame) : Except PyErr (List Val) :=
  f.rows.mapM (fun row =>
    match getItemE f.cols row "index_right" with
    | .error e => .error e
    | .ok ir =>
      if ir == Val.vNull then getItemE f.cols row "geometry"
      else
        match getItemE f.cols row "geometry" with
        | .error e => .error e
        | .ok g =>
          match getItemE f.cols row "geometry_right" with
          | .error e => .error e
          | .ok gr =>
            match g, gr with
            | .vGeom a, .vGeom b => .ok (Val.vGeom (differenceG a b))
            | _, _ => .error (.valueError "difference applied to a non-geometry"))

/-- `union_op` of `_overlay_union` (overlay.py lines 92-97). -/
def applyUnionLambda (f : Frame) : Except PyErr (List Val) :=
  f.rows.mapM (fun row =>
    match getItemE f.cols row "geometry_y" with
    | .error e => .error e
    | .ok gy =>
      match getItemE f.cols row "geometry_x" with
      | .error e => .error e
      | .ok gx =>
        match gx, gy with
        | gx, .vNull => .ok gx
        | .vNull, gy => .ok gy
        | .vGeom a, .vGeom b => .ok (Val.vGeom (unionG a b))
        | _, _ => .error (.valueError "union applied to a non-geometry"))

/-- `_overlay_intersection` (overlay.py lines 24-40): inner sjoin on
`intersects`, replace the geometry by the pairwise intersection, drop the
bookkeeping columns, reset the index.  Warnings raised by the inner sjoin
are collected alongside the result. -/
def _overlay_intersection (df1 df2 : Frame) : Except PyErr Frame × List Warn :=
  let df1 := (_ensure_geometry_column df1).1
  let df2 := (_ensure_geometry_column df2).1
  match sjoin df1 df2 "inner" "intersects" "left" "right" none [] with
  | (.error e, w) => (.error e, w)
  | (.ok joined, w) =>
    match applyIntersectionLambda joined with
    | .error e => (.error e, w)
    | .ok newGeoms =>
      match (joined.setCol "geometry" newGeoms).dropCols
              ["geometry_x", "geometry_y", "index_right"] with
      | .error e => (.error e, w)
      | .ok res => (.ok res.resetIndexDrop, w)

/-- `_overlay_difference` (overlay.py lines 42-63): left sjoin on
`intersects`, row-wise `difference_op`, drop the bookkeeping columns, reset
the index. -/
def _overlay_difference (df1 df2 : Frame) : Except PyErr Frame × List Warn :=
  let df1 := (_ensure_geometry_column df1).1
  let df2 := (_ensure_geometry_column df2).1
  match sjoin df1 df2 "left" "intersects" "left" "right" none [] with
  | (.error e, w) => (.error e, w)
  | (.ok joined, w) =>
    match applyDifferenceLambda joined with
    | .error e => (.error e, w)
    | .ok newGeoms =>
      match (joined.setCol "geometry" newGeoms).dropCols
              ["geometry_right", "index_right"] with
      | .error e => (.error e, w)
      | .ok res => (.ok res.resetIndexDrop, w)

/-- `_overlay_symmetric_diff` (overlay.py lines 65-79): the concatenation of
the two difference results with a fresh index (the first failure
propagates). -/
def _overlay_symmetric_diff (df1 df2 : Frame) : Except PyErr Frame × List Warn :=
  let df1 := (_ensure_geometry_column df1).1
  let df2 := (_ensure_geometry_column df2).1
  match _overlay_difference df1 df2 with
  | (.error e, w) => (.error e, w)
  | (.ok a, w1) =>
    match _overlay_difference df2 df1 with
    | (.error e, w2) => (.error e, w1 ++ w2)
    | (.ok b, w2) => (.ok (concatFrames a b), w1 ++ w2)

/-- `_overlay_union` (overlay.py lines 81-104): the source asks the join
engine for `how="outer"`, which `_basic_checks` rejects, so the `union_op`
step below it is dead code. -/
def _overlay_union (df1 df2 : Frame) : Except PyErr Frame × List Warn :=
  let df1 := (_ensure_geometry_column df1).1
  let df2 := (_ensure_geometry_column df2).1
  match sjoin df1 df2 "outer" "intersects" "left" "right" none [] with
  | (.error e, w) => (.error e, w)
  | (.ok joined, w) =>
    match applyUnionLambda joined with
    | .error e => (.error e, w)
    | .ok newGeoms =>
      match (joined.setCol "geometry" newGeoms).dropCols
              ["geometry_x", "geometry_y", "index_right"] with
      | .error e => (.error e, w)
      | .ok res => (.ok res.resetIndexDrop, w)

/-- The `how` dispatch of `overlay` (overlay.py lines 209-221); `identity`
concatenates the intersection and difference results (intersection computed
first). -/
def _overlay_dispatch (df1 df2 : Frame) (how : String) :
    Except PyErr Frame × List Warn :=
  if how = "intersection" then _overlay_intersection df1 df2
  else if how = "union" then _overlay_union df1 df2
  else if how = "identity" then
    match _overlay_intersection df1 df2 with
    | (.error e, w) => (.error e, w)
    | (.ok a, w1) =>
      match _overlay_difference df1 df2 with
      | (.error e, w2) => (.error e, w1 ++ w2)
      | (.ok b, w2) => (.ok (concatFrames a b), w1 ++ w2)
  else if how = "symmetric_difference" then _overlay_symmetric_diff df1 df2
  else if how = "difference" then _overlay_difference df1 df2
  else
    (.error (.valueError
      "how must be one of intersection, union, identity, symmetric_difference or difference"), [])

/-- Post-processing of `overlay` (overlay.py lines 223-244): with
`keep_geom_type=None` the filter is enabled and a warning is emitted when it
drops rows; the result is filtered to the geometry type of `df1`'s first
geometry, the index is reset and the CRS is taken from `df1`.  (The
`iloc[0]` on an empty frame is totalised with an empty default; no claim
reaches this code, because the dispatch always fails first.) -/
def _overlay_post (step : Except PyErr Frame × List Warn) (d1 : Frame)
    (keepGeomType : Option Bool) : Except PyErr Frame × List Warn :=
  match step with
  | (.error e, w) => (.error e, w)
  | (.ok result, w) =>
    if keepGeomType.getD true then
      let firstType := ((d1.geomCol.map geomTypeStr).headD "")
      let mask := result.geomCol.map (fun g => geomTypeStr g == firstType)
      let w2 :=
        if keepGeomType.isNone && !(mask.all (fun b => b)) then
          [Warn.keepGeomTypeDropped]
        else []
      (.ok { (maskFilterRows result mask).resetIndexDrop with crs := d1.crs }, w ++ w2)
    else
      (.ok { result.resetIndexDrop with crs := d1.crs }, w)

/-- Result of a call to `overlay`, with the caller-visible final states of
the two argument frames (the source's `df1["geometry"] = ...` assignment
mutates the caller's frame whenever `_ensure_geometry_column` returned the
input object itself). -/
structure OverlayOut where
  res : Except PyErr Frame
  warns : List Warn
  df1After : Frame
  df2After : Frame
deriving Repr

/-- `overlay` (overlay.py lines 106-246): ensure geometry columns, warn on
CRS mismatch, repair validity in place when `make_valid=True`, dispatch on
`how`, then post-process.  `df1After`/`df2After` are the caller's frames
after the call returns or raises. -/
def overlay (df1 df2 : Frame) (how : String) (keepGeomType : Option Bool)
    (makeValidFlag : Bool) : OverlayOut :=
  let e1 := _ensure_geometry_column df1
  let e2 := _ensure_geometry_column df2
  let warns0 := if _check_crs e1.1.crs e2.1.crs then [] else [Warn.crsMismatch]
  let d1 := if makeValidFlag then mapGeomCol makeValid e1.1 else e1.1
  let d2 := if makeValidFlag then mapGeomCol makeValid e2.1 else e2.1
  let post := _overlay_post (_overlay_dispatch d1 d2 how) d1 keepGeomType
  { res := post.1,
    warns := warns0 ++ post.2,
    df1After := if e1.2 && makeValidFlag then d1 else df1,
    df2After := if e2.2 && makeValidFlag then d2 else df2 }

/-!  Concrete input tables used by the claims. -/

/-- C1 scenario, left table: the single polygon box(0,0,2,2) with
`df1_data = 1`. -/
def df1Box : Frame :=
  ⟨["geometry", "df1_data"], [[.vGeom (.box 0 0 2 2), .vInt 1]], [0], none, "geometry", none⟩

/-- C1 scenario, right table: the single polygon box(1,1,3,3) with
`df2_data = 1`. -/
def df2Box : Frame :=
  ⟨["geometry", "df2_data"], [[.vGeom (.box 1 1 3 3), .vInt 1]], [0], none, "geometry", none⟩

/-- C2 failing input, left table: two points, neither intersecting the
right table. -/
def leftTwoPts : Frame :=
  ⟨["geometry", "a"], [[.vGeom (.pt 0 0), .vInt 1], [.vGeom (.pt 5 5), .vInt 2]],
   [0, 1], none, "geometry", none⟩

/-- C2 failing input, right table: one far-away point. -/
def rightOnePt : Frame :=
  ⟨["geometry", "b"], [[.vGeom (.pt 9 9), .vInt 3]], [0], none, "geometry", none⟩

/-- C3 scenario, left table with a non-geometry column `x`. -/
def leftWithX : Frame :=
  ⟨["geometry", "x"], [[.vGeom (.box 0 0 2 2), .vInt 1]], [0], none, "geometry", none⟩

/-- C3 scenario, right table with a non-geometry column `x`. -/
def rightWithX : Frame :=
  ⟨["geometry", "x"], [[.vGeom (.box 1 1 3 3), .vInt 2]], [0], none, "geometry", none⟩

/-- C4 scenario, left table: a single point on the shared boundary of the
two right polygons. -/
def boundaryPt : Frame :=
  ⟨["geometry", "p_data"], [[.vGeom (.pt 2 1), .vInt 9]], [0], none, "geometry", none⟩

/-- C4 scenario, right table: two polygons both touching the point at
distance 0. -/
def twoPolys : Frame :=
  ⟨["geometry", "poly_data"],
   [[.vGeom (.box 0 0 2 2), .vInt 10], [.vGeom (.box 2 0 4 2), .vInt 20]],
   [0, 1], none, "geometry", none⟩

/-- C5 counterexample input: a frame whose geometry is invalid, so that
`make_valid` changes its value. -/
def invalidGeomFrame : Frame :=
  ⟨["geometry", "a"], [[.vGeom (.invalid (.box 0 0 2 2)), .vInt 1]], [0], none, "geometry", none⟩

/-- C5 counterexample input, second argument. -/
def plainBoxFrame : Frame :=
  ⟨["geometry", "b"], [[.vGeom (.box 1 1 3 3), .vInt 2]], [0], none, "geometry", none⟩

/-- C8 failing input, left table with CRS 1. -/
def leftCrs1 : Frame :=
  ⟨["geometry", "a"], [[.vGeom (.pt 0 0), .vInt 1]], [0], none, "geometry", some 1⟩

/-- C8 failing input, right table with CRS 2. -/
def rightCrs2 : Frame :=
  ⟨["geometry", "b"], [[.vGeom (.pt 0 0), .vInt 2]], [0], none, "geometry", some 2⟩

/-- C9 counterexample, left table that already contains a column named
`index_right` (the reserved name of the opposite side). -/
def leftWithIndexRight : Frame :=
  ⟨["geometry", "index_right"], [[.vGeom (.box 0 0 1 1), .vInt 7]], [0], none, "geometry", none⟩

/-- C9 counterexample, right table. -/
def rightPlain : Frame :=
  ⟨["geometry"], [[.vGeom (.box 0 0 1 1)]], [0], none, "geometry", none⟩

/-- C9 witness input: a left table that already contains `index_left`. -/
def leftWithIndexLeft : Frame :=
  ⟨["geometry", "index_left"], [[.vGeom (.box 0 0 1 1), .vInt 7]], [0], none, "geometry", none⟩

/-!  Helper lemmas. -/

/-- Looking up a key in an association list built by pairing each element
with a function of itself returns that function value. -/
theorem lookup_map_pair (f : String → String) :
    ∀ (l : List String) (n : String), n ∈ l →
      (l.map (fun m => (m, f m))).lookup n = some (f n) := by
  intro l
  induction l with
  | nil => intro n h; cases h
  | cons a t ih =>
    intro n h
    by_cases hna : n = a
    · subst hna
      simp [List.lookup]
    · have ht : n ∈ t := by
        cases h with
        | head => exact absurd rfl hna
        | tail _ h2 => exact h2
      have hbeq : (n == a) = false := beq_eq_false_iff_ne.mpr hna
      simp [List.lookup, hbeq, ih n ht]

/-- Behaviour of the `while f"{base}_{i}" in columns` loop: as long as some
candidate within the fuel is free, the loop stops at the first free
candidate counting up from `i`, and every earlier candidate was taken. -/
theorem uniqueFrom_spec (base : String) (taken : List String) :
    ∀ (fuel i : Nat), (∃ j, j ≤ fuel ∧ mkCand base (i + j) ∉ taken) →
      uniqueFrom base taken fuel i ∉ taken ∧
      ∃ j, uniqueFrom base taken fuel i = mkCand base j ∧ i ≤ j ∧
        ∀ k, i ≤ k → k < j → mkCand base k ∈ taken := by
  intro fuel
  induction fuel with
  | zero =>
    intro i h
    obtain ⟨j, hj, hfree⟩ := h
    have hj0 : j = 0 := Nat.le_zero.mp hj
    subst hj0
    have hfree' : mkCand base i ∉ taken := by simpa using hfree
    refine ⟨by simpa [uniqueFrom] using hfree', i, by simp [uniqueFrom], le_refl i, ?_⟩
    intro k hk1 hk2
    omega
  | succ fuel ih =>
    intro i h
    by_cases hin : mkCand base i ∈ taken
    · have h' : ∃ j, j ≤ fuel ∧ mkCand base (i + 1 + j) ∉ taken := by
        obtain ⟨j, hj, hfree⟩ := h
        match j with
        | 0 => exact absurd hin (by simpa using hfree)
        | j' + 1 =>
          refine ⟨j', by omega, ?_⟩
          have harith : i + 1 + j' = i + (j' + 1) := by omega
          rw [harith]
          exact hfree
      obtain ⟨hnot, j, heq, hij, hmin⟩ := ih (i + 1) h'
      have hstep : uniqueFrom base taken (fuel + 1) i = uniqueFrom base taken fuel (i + 1) := by
        simp [uniqueFrom, hin]
      refine ⟨by rw [hstep]; exact hnot, j, by rw [hstep]; exact heq, by omega, ?_⟩
      intro k hk1 hk2
      by_cases hki : k = i
      · subst hki; exact hin
      · exact hmin k (by omega) hk2
    · have hstep : uniqueFrom base taken (fuel + 1) i = mkCand base i := by
        simp [uniqueFrom, hin]
      refine ⟨by rw [hstep]; exact hin, i, hstep, le_refl i, ?_⟩
      intro k hk1 hk2
      omega

/-- Route the query pairs through `_adjust_indexers` with `distances=None`:
the adjusted distances are always `None` again (or the call errors). -/
theorem adjust_none_distances (indices : List Int × List Int) (n : Nat)
    (how predicate : String) :
    (∃ p, _adjust_indexers indices none n how predicate = .ok (p, none)) ∨
    (∃ e, _adjust_indexers indices none n how predicate = .error e) := by
  unfold _adjust_indexers
  by_cases h1 : how = "inner"
  · simp [h1]
  · rw [if_neg h1]
    by_cases h2 : how = "left"
    · rw [if_pos h2]
      cases hw : npWhere (npIsin (rangeInt n) indices.1) indices.1 (rangeInt n) with
      | error e => exact Or.inr ⟨e, rfl⟩
      | ok leftAdj =>
        cases hs : npWhereScalar (npIsin (rangeInt n) indices.1) indices.2 (-1) with
        | error e => exact Or.inr ⟨e, rfl⟩
        | ok rightAdj =>
          simp
    · rw [if_neg h2]
      by_cases h3 : how = "right"
      · rw [if_pos h3]
        cases hw : npWhereScalar (npIsin (rangeInt n) indices.2) indices.1 (-1) with
        | error e => exact Or.inr ⟨e, rfl⟩
        | ok leftAdj =>
          cases hs : npWhere (npIsin (rangeInt n) indices.2) indices.2 (rangeInt n) with
          | error e => exact Or.inr ⟨e, rfl⟩
          | ok rightAdj =>
            simp
      · rw [if_neg h3]
        exact Or.inr ⟨_, rfl⟩

/-- With `distances=None`, `_frame_join` coincides with the variant that has
no distance-attachment step at all. -/
theorem frame_join_none_eq_noAttach (left right : Frame)
    (indices : List Int × List Int) (how lsuffix rsuffix predicate : String) :
    _frame_join left right indices none how lsuffix rsuffix predicate
      = _frame_joinNoAttach left right indices none how lsuffix rsuffix predicate := by
  unfold _frame_join _frame_joinNoAttach
  rcases adjust_none_distances indices left.rows.length how predicate with ⟨p, hp⟩ | ⟨e, he⟩
  · rw [hp]
    cases hm : _frame_join_merge left right p how lsuffix rsuffix with
    | error e => rfl
    | ok v => simp
  · rw [he]


/-!  Claim theorems.  Each claim of CLAIMS.json gets exactly one theorem
below (plus a counterexample / witness where the status requires one). -/

/-- C1: in the concrete scenario with df1 = box(0,0,2,2), df1_data=1 and
df2 = box(1,1,3,3), df2_data=1, the claim says `overlay(df1, df2,
"intersection")` returns one row and `overlay(df1, df2, "union")` returns
three rows.  The code instead raises on both calls: the intersection path
dies with a KeyError when `_frame_join` restores the index (it passes the
post-reset RangeIndex names, `[None]`, to `set_index`), and the union path
dies immediately because `_overlay_union` asks `sjoin` for `how="outer"`,
which `_basic_checks` rejects. -/
theorem C1_overlay_concrete_scenario_raises :
    (overlay df1Box df2Box "intersection" none true).res
        = .error (.keyError "None of the index names are in the columns")
  ∧ (overlay df1Box df2Box "union" none true).res
        = .error (.valueError "how was outer but is expected to be left, right or inner") :=
  ⟨rfl, rfl⟩

/-- C2: the claim says every left row appears at least once in a left join,
unmatched rows once with null right-side attributes.  With two left points
and no matches, `_adjust_indexers` evaluates `np.where(mask, _key_left,
arange(2))` on shapes (2,) and (0,), which numpy cannot broadcast, so the
join raises a ValueError instead of returning the two null-padded rows. -/
theorem C2_left_join_unmatched_rows_raise :
    (sjoin leftTwoPts rightOnePt "left" "intersects" "left" "right" none []).1
      = .error (.valueError "operands could not be broadcast together") :=
  rfl

/-- C3 counterexample: joining two one-row tables that both carry a
non-geometry column `x` produces no join output at all (every sjoin raises
restoring the index), and the rename computed by the column-reconciliation
step for the post-reset column lists maps `x` to `xleft` / `xright` (suffix
concatenated directly), not to `x_left` / `x_right` as the claim states. -/
theorem C3_counterexample_no_underscore_suffix :
    (sjoin leftWithX rightWithX "inner" "intersects" "left" "right" none []).1
        = .error (.keyError "None of the index names are in the columns")
  ∧ (_process_column_names_with_suffix ["index_left", "geometry", "x"]
        ["index_right", "geometry", "x"] "left" "right").1 = [("x", "xleft")]
  ∧ (_process_column_names_with_suffix ["index_left", "geometry", "x"]
        ["index_right", "geometry", "x"] "left" "right").2 = [("x", "xright")]
  ∧ "xleft" ≠ "x_left" :=
  ⟨rfl, rfl, rfl, by decide⟩

/-- C3 amended: for any pair of distinct column lists, a name present in
both (other than `geometry`) is renamed on each side to the name with the
corresponding suffix appended directly (no separator); when the suffixed
name still collides with an existing column on that side, `_0`, `_1`, ...
are appended, counting up until the first free candidate (provided one
exists within the loop's reach, which the witness discharges concretely). -/
theorem C3_amended_suffix_rule (left right : List String) (n lsuf rsuf : String)
    (hne : left ≠ right) (hl : n ∈ left) (hr : n ∈ right) (hg : n ≠ "geometry")
    (hfree : ∃ j, j ≤ left.length ∧ mkCand (n ++ lsuf) j ∉ left) :
    ((_process_column_names_with_suffix left right lsuf rsuf).1.lookup n
        = some (getNewName n lsuf left))
  ∧ ((_process_column_names_with_suffix left right lsuf rsuf).2.lookup n
        = some (getNewName n rsuf right))
  ∧ ((n ++ lsuf) ∉ left → getNewName n lsuf left = n ++ lsuf)
  ∧ ((n ++ lsuf) ∈ left → getNewName n lsuf left ∉ left ∧
        ∃ j, getNewName n lsuf left = mkCand (n ++ lsuf) j ∧
          ∀ k, k < j → mkCand (n ++ lsuf) k ∈ left) := by
  have hov : n ∈ overlapCols left right := by
    unfold overlapCols
    rw [List.mem_filter]
    refine ⟨hl, ?_⟩
    simp [hr, hg]
  refine ⟨?_, ?_, ?_, ?_⟩
  · unfold _process_column_names_with_suffix
    rw [if_neg hne]
    exact lookup_map_pair _ _ _ hov
  · unfold _process_column_names_with_suffix
    rw [if_neg hne]
    exact lookup_map_pair _ _ _ hov
  · intro hcol
    unfold getNewName
    rw [if_neg hcol]
  · intro hcol
    unfold getNewName uniqueName
    rw [if_pos hcol]
    have hfuel : ∃ j, j ≤ left.length + 1 ∧ mkCand (n ++ lsuf) (0 + j) ∉ left := by
      obtain ⟨j, hj, hf⟩ := hfree
      exact ⟨j, by omega, by simpa using hf⟩
    obtain ⟨hnot, j, heq, _, hmin⟩ := uniqueFrom_spec (n ++ lsuf) left (left.length + 1) 0 hfuel
    exact ⟨hnot, j, heq, fun k hk => hmin k (Nat.zero_le k) hk⟩

/-- C3 witness: the amended rule applied to the concrete post-reset column
lists of the `x`-collision scenario, with all hypotheses discharged. -/
theorem C3_amended_suffix_rule_witness :
    ((["index_left", "geometry", "x"] : List String) ≠ ["index_right", "geometry", "x"])
  ∧ (_process_column_names_with_suffix ["index_left", "geometry", "x"]
        ["index_right", "geometry", "x"] "left" "right").1.lookup "x"
        = some (getNewName "x" "left" ["index_left", "geometry", "x"]) := by
  refine ⟨by decide, ?_⟩
  exact (C3_amended_suffix_rule ["index_left", "geometry", "x"]
    ["index_right", "geometry", "x"] "x" "left" "right"
    (by decide) (by decide) (by decide) (by decide)
    ⟨0, by decide, by decide⟩).1

/-- C4: the claim says sjoin_nearest fans out over equidistant right rows,
returning two rows for a point on the shared boundary of two polygons.  The
external nearest query does report both ties at distance 0, but the call
then raises the index-restoration KeyError inside `_frame_join` (and even
before that error, the label-based merge would have paired both rows with
the first polygon), so no two-row result is ever returned. -/
theorem C4_sjoin_nearest_scenario_raises :
    sindexNearest boundaryPt.geomCol twoPolys.geomCol none false
        = ([0, 0], [0, 1], [0, 0])
  ∧ (sjoin_nearest boundaryPt twoPolys "inner" none "left" "right"
        (some "distances") false).1
        = .error (.keyError "None of the index names are in the columns") :=
  ⟨rfl, rfl⟩

/-- C5 counterexample: overlay with make_valid=True (the default) mutates
the caller's first input in place: after the call on a frame holding an
invalid geometry, the caller's frame holds the repaired geometry, not its
original value, so the inputs are not left intact. -/
theorem C5_counterexample_input_mutated :
    (overlay invalidGeomFrame plainBoxFrame "intersection" none true).df1After
      ≠ invalidGeomFrame := by
  decide

/-- C5 amended: `overlay` with make_valid=True writes `make_valid` of the
geometry column back into the caller's frame in place whenever the frame's
active geometry column is already named `geometry` (no validity-repair copy
is made); with make_valid=False, or when `_ensure_geometry_column` had to
rebuild the frame under a different geometry column name, the caller's
frames are returned untouched. -/
theorem C5_amended_make_valid_mutates_in_place (df1 df2 : Frame) (how : String)
    (keepGeomType : Option Bool) (mv : Bool) :
    ((overlay df1 df2 how keepGeomType mv).df1After
        = if mv ∧ df1.geomName = "geometry" then mapGeomCol makeValid df1 else df1)
  ∧ ((overlay df1 df2 how keepGeomType mv).df2After
        = if mv ∧ df2.geomName = "geometry" then mapGeomCol makeValid df2 else df2) := by
  constructor
  · show (overlay df1 df2 how keepGeomType mv).df1After = _
    unfold overlay
    by_cases hg : df1.geomName = "geometry"
    · simp only [_ensure_geometry_column, if_pos hg]
      cases mv <;> simp [hg]
    · simp only [_ensure_geometry_column, if_neg hg]
      cases mv <;> simp [hg]
  · show (overlay df1 df2 how keepGeomType mv).df2After = _
    unfold overlay
    by_cases hg : df2.geomName = "geometry"
    · simp only [_ensure_geometry_column, if_pos hg]
      cases mv <;> simp [hg]
    · simp only [_ensure_geometry_column, if_neg hg]
      cases mv <;> simp [hg]

/-- C6: the claim equates `overlay(A, B, "symmetric_difference")` with the
concatenation of the two difference results.  Neither side ever produces
rows: on the concrete boxes both the symmetric-difference call and the
difference call raise the same KeyError out of the first inner sjoin's
index restoration, so there are no row lists to concatenate or compare. -/
theorem C6_symmetric_difference_and_difference_raise :
    (overlay df1Box df2Box "symmetric_difference" none true).res
        = .error (.keyError "None of the index names are in the columns")
  ∧ (overlay df1Box df2Box "difference" none true).res
        = .error (.keyError "None of the index names are in the columns") :=
  ⟨rfl, rfl⟩

/-- C7: the claim says keep_geom_type=None enables the geometry-type filter
and a warning when rows are dropped, with the computation completing.  The
post-processing block is written that way but is dead code: the dispatch
step raises before it on every input, so the call errors and no
keep-geom-type warning is ever emitted. -/
theorem C7_keep_geom_type_postprocessing_unreached :
    (overlay df1Box df2Box "intersection" none true).res
        = .error (.keyError "None of the index names are in the columns")
  ∧ Warn.keepGeomTypeDropped ∉ (overlay df1Box df2Box "intersection" none true).warns := by
  refine ⟨rfl, ?_⟩
  decide

/-- C8: with mismatching CRS attributes, sjoin, sjoin_nearest and overlay
all emit the CRS-mismatch warning and the mismatch itself raises nothing
(overlay even warns twice, once itself and once in its inner sjoin), but
contrary to the claim no call completes the operation: each raises the
index-restoration KeyError that every join path hits, with or without the
mismatch. -/
theorem C8_crs_mismatch_warns_but_no_call_completes :
    (sjoin leftCrs1 rightCrs2 "inner" "intersects" "left" "right" none []).2
        = [Warn.crsMismatch]
  ∧ (sjoin leftCrs1 rightCrs2 "inner" "intersects" "left" "right" none []).1
        = .error (.keyError "None of the index names are in the columns")
  ∧ (sjoin_nearest leftCrs1 rightCrs2 "inner" none "left" "right" none false).2
        = [Warn.crsMismatch]
  ∧ (sjoin_nearest leftCrs1 rightCrs2 "inner" none "left" "right" none false).1
        = .error (.keyError "None of the index names are in the columns")
  ∧ (overlay leftCrs1 rightCrs2 "intersection" none true).warns
        = [Warn.crsMismatch, Warn.crsMismatch]
  ∧ (overlay leftCrs1 rightCrs2 "intersection" none true).res
        = .error (.keyError "None of the index names are in the columns") :=
  ⟨rfl, rfl, rfl, rfl, rfl, rfl⟩

/-- C9 counterexample: a left table already containing the reserved column
`index_right` passes validation untouched (`_basic_checks` only tests
`index_left` against the left frame and `index_right` against the right
frame), and the subsequent call fails much later with the unrelated
index-restoration KeyError — no input-validation error is raised at all,
contradicting the claim. -/
theorem C9_counterexample_opposite_side_not_checked :
    _basic_checks leftWithIndexRight rightPlain "inner" "left" "right" [] = .ok ()
  ∧ (sjoin leftWithIndexRight rightPlain "inner" "intersects" "left" "right" none []).1
        = .error (.keyError "None of the index names are in the columns") :=
  ⟨rfl, rfl⟩

/-- C9 amended: sjoin and sjoin_nearest validate `index_<lsuffix>` against
the left table's columns only and `index_<rsuffix>` against the right
table's columns only; when one of those pre-exists, a ValueError is raised
before any spatial querying (the result does not depend on the index query
functions at all), while the reserved name pre-existing in the opposite
table goes undetected. -/
theorem C9_amended_validation_is_per_side (q : QueryFn) (nq : NearestFn)
    (left right : Frame) (how predicate lsuffix rsuffix : String)
    (distance maxDistance : Option Int) (onAttribute : List String)
    (distanceCol : Option String) (exclusive : Bool)
    (hhow : how ∈ (["left", "right", "inner"] : List String)) :
    ((("index_" ++ lsuffix) ∈ left.cols →
      (sjoinWith q left right how predicate lsuffix rsuffix distance onAttribute).1
          = .error (.valueError (("index_" ++ lsuffix)
              ++ " column already exists in left GeoDataFrame"))
      ∧ (sjoin_nearestWith nq left right how maxDistance lsuffix rsuffix
            distanceCol exclusive).1
          = .error (.valueError (("index_" ++ lsuffix)
              ++ " column already exists in left GeoDataFrame"))))
  ∧ ((("index_" ++ lsuffix) ∉ left.cols → ("index_" ++ rsuffix) ∈ right.cols →
      (sjoinWith q left right how predicate lsuffix rsuffix distance onAttribute).1
          = .error (.valueError (("index_" ++ rsuffix)
              ++ " column already exists in right GeoDataFrame"))
      ∧ (sjoin_nearestWith nq left right how maxDistance lsuffix rsuffix
            distanceCol exclusive).1
          = .error (.valueError (("index_" ++ rsuffix)
              ++ " column already exists in right GeoDataFrame")))) := by
  constructor
  · intro hl
    constructor
    · unfold sjoinWith _basic_checks
      rw [if_pos hhow, if_pos hl]
    · unfold sjoin_nearestWith _basic_checks
      rw [if_pos hhow, if_pos hl]
  · intro hl hr
    constructor
    · unfold sjoinWith _basic_checks
      rw [if_pos hhow, if_neg hl, if_pos hr]
    · unfold sjoin_nearestWith _basic_checks
      rw [if_pos hhow, if_neg hl, if_pos hr]

/-- C9 witness: the amended validation rule applied to a concrete left
table that already carries `index_left`, hypotheses discharged. -/
theorem C9_amended_validation_witness :
    ("index_left" : String) ∈ leftWithIndexLeft.cols
  ∧ (sjoinWith sindexQuery leftWithIndexLeft rightPlain "inner" "intersects"
        "left" "right" none []).1
      = .error (.valueError "index_left column already exists in left GeoDataFrame") := by
  refine ⟨by decide, ?_⟩
  exact ((C9_amended_validation_is_per_side sindexQuery sindexNearest
    leftWithIndexLeft rightPlain "inner" "intersects" "left" "right"
    none none [] none false (by decide)).1 (by decide)).1

/-- C10: on the plain `sjoin` path the distances value threaded through the
frame-join step is always `None`, so the predicate-specific `distance`
attachment never fires: for every input (any `how`, any predicate including
`dwithin` with a distance, any suffixes, any `on_attribute`, any index
query) `sjoin` coincides with the pipeline from which the attachment step
has been deleted. -/
theorem C10_plain_sjoin_never_attaches_distance (q : QueryFn) (left right : Frame)
    (how predicate lsuffix rsuffix : String) (distance : Option Int)
    (onAttribute : List String) :
    sjoinWith q left right how predicate lsuffix rsuffix distance onAttribute
      = sjoinNoAttachWith q left right how predicate lsuffix rsuffix distance onAttribute := by
  unfold sjoinWith sjoinNoAttachWith
  cases hb : _basic_checks left right how lsuffix rsuffix onAttribute with
  | error e => rfl
  | ok u =>
    cases hq : _geom_predicate_queryWith q left right predicate distance onAttribute with
    | error e => rfl
    | ok indices => simp only [frame_join_none_eq_noAttach]


end GeoPandas
